import Mathlib

/-
  Verification development for review_pr.py, an automated pull-request
  review script.  The Python source is shallowly embedded below:

  * `Json`, `jsonLoads`      — model of Python's json values and json.loads
                               (restricted to the JSON fragment the script
                               exchanges: \uXXXX escapes and float literals
                               are not modelled and make the parse fail);
  * `extractBody`,
    `reviewExtract`          — the response-extraction part of review_code
                               (lines 219-247), with the raise/except pairs
                               modelled by Except;
  * `normalizeData`          — the category-normalisation loop (lines 230-237),
                               unrolled over the closed CATEGORIES list;
  * `post_inline_comments`   — the inline-comment loop (lines 254-287), with
                               the network POST modelled by a success oracle;
  * `mergeStep`, `renderBody`— the aggregation loop of __main__ (lines 376-383)
                               and the body construction of post_pr_comment
                               (lines 298-314);
  * `mainRun`                — the __main__ sequencing (lines 330-386) over a
                               record of upstream oracles (GitHub fetches and
                               the model response).
-/

namespace ReviewPr

/-- Model of a Python/JSON value as exchanged by the script.  Numbers are
restricted to integers (the only numeric fields used are line numbers). -/
inductive Json where
  | null : Json
  | bool : Bool → Json
  | num : Int → Json
  | str : String → Json
  | arr : List Json → Json
  | obj : List (String × Json) → Json

/-- Python truthiness (`if not x`) on a JSON value: None, False, 0, the empty
string, the empty list and the empty dict are falsy. -/
def jTruthy : Json → Bool
  | Json.null => false
  | Json.bool b => b
  | Json.num n => decide (n ≠ 0)
  | Json.str s => decide (s ≠ "")
  | Json.arr l => !l.isEmpty
  | Json.obj l => !l.isEmpty

/-- dict.get on an association list; later bindings win, as when Python
builds a dict from a JSON object with duplicate keys. -/
def objGet : List (String × Json) → String → Option Json
  | [], _ => none
  | (k, v) :: rest, key =>
    match objGet rest key with
    | some r => some r
    | none => if k = key then some v else none

/-- comment.get(key) for a finding object.  A non-dict entry is treated as
having no fields (Python would raise AttributeError there; the reviewed
pipeline only reaches this with dict entries). -/
def comGet : Json → String → Option Json
  | Json.obj kvs, key => objGet kvs key
  | _, _ => none

/- ----------------------------------------------------------------- -/
/- Model of json.loads: a fuel-based recursive-descent JSON parser.   -/
/- ----------------------------------------------------------------- -/

def isWsChar (c : Char) : Bool :=
  c == ' ' || c == '\t' || c == '\n' || c == '\r'

def skipWs : List Char → List Char
  | [] => []
  | c :: cs => if isWsChar c then skipWs cs else c :: cs

/-- JSON string escapes (\uXXXX is not modelled and fails the parse). -/
def escChar : Char → Option Char
  | '"' => some '"'
  | '\\' => some '\\'
  | '/' => some '/'
  | 'b' => some '\x08'
  | 'f' => some '\x0c'
  | 'n' => some '\n'
  | 'r' => some '\r'
  | 't' => some '\t'
  | _ => none

/-- Body of a JSON string literal, after the opening quote; returns the
decoded characters and the rest of the input. -/
def parseStringBody : List Char → Option (List Char × List Char)
  | [] => none
  | '"' :: rest => some ([], rest)
  | '\\' :: e :: rest =>
    match escChar e with
    | some ec =>
      match parseStringBody rest with
      | some (cs, r) => some (ec :: cs, r)
      | none => none
    | none => none
  | c :: rest =>
    match parseStringBody rest with
    | some (cs, r) => some (c :: cs, r)
    | none => none

def takeDigits : List Char → List Char × List Char
  | [] => ([], [])
  | c :: cs =>
    if c.isDigit then
      match takeDigits cs with
      | (ds, r) => (c :: ds, r)
    else ([], c :: cs)

def digitsVal (l : List Char) : Nat :=
  l.foldl (fun n c => n * 10 + (c.toNat - 48)) 0

/-- A '.' or exponent after the integer part would start a float literal,
which this model does not cover (the script only exchanges integers). -/
def floatFollows : List Char → Bool
  | [] => false
  | c :: _ => c == '.' || c == 'e' || c == 'E'

def parseDigitsPart (l : List Char) : Option (Nat × List Char) :=
  match takeDigits l with
  | ([], _) => none
  | (ds, r) =>
    if decide (ds.length > 1) && (ds.headD '0' == '0') then none
    else if floatFollows r then none
    else some (digitsVal ds, r)

def parseNumber (l : List Char) : Option (Json × List Char) :=
  match l with
  | '-' :: rest =>
    match parseDigitsPart rest with
    | some (n, r) => some (Json.num (-(Int.ofNat n)), r)
    | none => none
  | _ =>
    match parseDigitsPart l with
    | some (n, r) => some (Json.num (Int.ofNat n), r)
    | none => none

mutual

def parseValue : Nat → List Char → Option (Json × List Char)
  | 0, _ => none
  | fuel + 1, input =>
    match skipWs input with
    | 'n' :: 'u' :: 'l' :: 'l' :: rest => some (Json.null, rest)
    | 't' :: 'r' :: 'u' :: 'e' :: rest => some (Json.bool true, rest)
    | 'f' :: 'a' :: 'l' :: 's' :: 'e' :: rest => some (Json.bool false, rest)
    | '"' :: rest =>
      match parseStringBody rest with
      | some (cs, r) => some (Json.str (String.mk cs), r)
      | none => none
    | '[' :: rest => parseArray fuel rest
    | '\x7b' :: rest => parseObjBody fuel rest
    | c :: rest =>
      if c == '-' || c.isDigit then parseNumber (c :: rest) else none
    | [] => none

def parseArray : Nat → List Char → Option (Json × List Char)
  | 0, _ => none
  | fuel + 1, input =>
    match skipWs input with
    | ']' :: rest => some (Json.arr [], rest)
    | other =>
      match parseValue fuel other with
      | some (v, r) =>
        match parseArrayTail fuel r with
        | some (vs, r2) => some (Json.arr (v :: vs), r2)
        | none => none
      | none => none

def parseArrayTail : Nat → List Char → Option (List Json × List Char)
  | 0, _ => none
  | fuel + 1, input =>
    match skipWs input with
    | ']' :: rest => some ([], rest)
    | ',' :: rest =>
      match parseValue fuel rest with
      | some (v, r) =>
        match parseArrayTail fuel r with
        | some (vs, r2) => some (v :: vs, r2)
        | none => none
      | none => none
    | _ => none

def parseObjBody : Nat → List Char → Option (Json × List Char)
  | 0, _ => none
  | fuel + 1, input =>
    match skipWs input with
    | '\x7d' :: rest => some (Json.obj [], rest)
    | other =>
      match parseMember fuel other with
      | some (kv, r) =>
        match parseObjTail fuel r with
        | some (kvs, r2) => some (Json.obj (kv :: kvs), r2)
        | none => none
      | none => none

def parseObjTail : Nat → List Char → Option (List (String × Json) × List Char)
  | 0, _ => none
  | fuel + 1, input =>
    match skipWs input with
    | '\x7d' :: rest => some ([], rest)
    | ',' :: rest =>
      match parseMember fuel rest with
      | some (kv, r) =>
        match parseObjTail fuel r with
        | some (kvs, r2) => some (kv :: kvs, r2)
        | none => none
      | none => none
    | _ => none

def parseMember : Nat → List Char → Option ((String × Json) × List Char)
  | 0, _ => none
  | fuel + 1, input =>
    match skipWs input with
    | '"' :: rest =>
      match parseStringBody rest with
      | some (kcs, r) =>
        match skipWs r with
        | ':' :: r2 =>
          match parseValue fuel r2 with
          | some (v, r3) => some ((String.mk kcs, v), r3)
          | none => none
        | _ => none
      | none => none
    | _ => none

end

/-- Model of json.loads: parse one JSON value and require only whitespace
after it.  The fuel bound is generous (the parsers consume at most two
units of fuel per input character). -/
def jsonLoads (s : String) : Option Json :=
  match parseValue (2 * s.data.length + 8) s.data with
  | some (v, rest) => if (skipWs rest).isEmpty then some v else none
  | none => none

/- ----------------------------------------------------------------- -/
/- Python string helpers used by review_code.                         -/
/- ----------------------------------------------------------------- -/

/-- str.find for a single character: index of the first occurrence
(`none` models the -1 return). -/
def findCharIdx (c : Char) : List Char → Option Nat
  | [] => none
  | x :: xs =>
    if x = c then some 0
    else
      match findCharIdx c xs with
      | some i => some (i + 1)
      | none => none

/-- str.rfind for a single character: index of the last occurrence
(`none` models the -1 return). -/
def rfindCharIdx (c : Char) (l : List Char) : Option Nat :=
  match findCharIdx c l.reverse with
  | some i => some (l.length - 1 - i)
  | none => none

/-- Python slice s[a:b] with non-negative bounds. -/
def pySlice (l : List Char) (a b : Nat) : List Char :=
  (l.take b).drop a

/-- str.strip (whitespace on both ends). -/
def pyStrip (s : String) : String :=
  String.mk (((s.data.dropWhile isWsChar).reverse.dropWhile isWsChar).reverse)

/- ----------------------------------------------------------------- -/
/- review_code: extraction and normalisation (lines 219-247).         -/
/- ----------------------------------------------------------------- -/

/-- The fixed category list of review_pr.py (lines 48-54). -/
def CATEGORIES : List String :=
  ["overall_review",
   "code_quality_and_best_practices",
   "readability_and_maintainability",
   "efficiency_and_performance_improvements",
   "security_vulnerabilities"]

/-- The exceptions the extraction body can raise; both are caught by the
except clause of review_code (line 239). -/
inductive PyErr where
  | valueError : String → PyErr
  | jsonDecodeError : PyErr

/-- Lines 222-227 of review_code: locate the first brace and the last
closing brace, raise ValueError when either is absent, then json.loads
the candidate substring.  A successful load of a brace-delimited candidate
is always a JSON object, so the object pattern is exhaustive on the
success side. -/
def extractBody (raw : String) : Except PyErr (List (String × Json)) :=
  match findCharIdx '\x7b' raw.data, rfindCharIdx '\x7d' raw.data with
  | some i, some j =>
    match jsonLoads (String.mk (pySlice raw.data i (j + 1))) with
    | some (Json.obj kvs) => Except.ok kvs
    | _ => Except.error PyErr.jsonDecodeError
  | _, _ => Except.error (PyErr.valueError "AI did not return valid JSON.")

/-- Lines 230-237 of review_code: the normalisation loop over CATEGORIES,
unrolled over that closed list.  overall_review defaults to the empty
string, the finding categories default to the empty list. -/
def normalizeData (data : List (String × Json)) : List (String × Json) :=
  [("overall_review", (objGet data "overall_review").getD (Json.str "")),
   ("code_quality_and_best_practices",
     (objGet data "code_quality_and_best_practices").getD (Json.arr [])),
   ("readability_and_maintainability",
     (objGet data "readability_and_maintainability").getD (Json.arr [])),
   ("efficiency_and_performance_improvements",
     (objGet data "efficiency_and_performance_improvements").getD (Json.arr [])),
   ("security_vulnerabilities",
     (objGet data "security_vulnerabilities").getD (Json.arr []))]

/-- The dict returned by the except clause of review_code (lines 241-247). -/
def fallbackData : List (String × Json) :=
  [("overall_review", Json.str "AI review could not be generated."),
   ("code_quality_and_best_practices", Json.arr []),
   ("readability_and_maintainability", Json.arr []),
   ("efficiency_and_performance_improvements", Json.arr []),
   ("security_vulnerabilities", Json.arr [])]

/-- The extraction step of review_code (lines 222-247): the try body with
the except clause collapsing every raised error into the fallback dict. -/
def reviewExtract (raw : String) : List (String × Json) :=
  match extractBody raw with
  | Except.ok data => normalizeData data
  | Except.error _ => fallbackData

/-- review_code as seen from __main__: the model response oracle is `none`
when the OpenAI call raises (also caught by the except clause), otherwise
the raw response text, which is stripped (line 219) and extracted. -/
def review_code (aiResponse : Option String) : List (String × Json) :=
  match aiResponse with
  | none => fallbackData
  | some t => reviewExtract (pyStrip t)

/- ----------------------------------------------------------------- -/
/- Aggregation (__main__ lines 350-356 and 376-383).                  -/
/- ----------------------------------------------------------------- -/

/-- The four finding categories (CATEGORIES without overall_review). -/
inductive Cat where
  | code_quality : Cat
  | readability : Cat
  | efficiency : Cat
  | security : Cat
deriving DecidableEq

/-- The CATEGORIES string for a finding category. -/
def Cat.key : Cat → String
  | Cat.code_quality => "code_quality_and_best_practices"
  | Cat.readability => "readability_and_maintainability"
  | Cat.efficiency => "efficiency_and_performance_improvements"
  | Cat.security => "security_vulnerabilities"

/-- aggregated_data of __main__ (lines 350-356): an overall string and one
list per finding category. -/
structure AggData where
  overall_review : String
  code_quality : List Json
  readability : List Json
  efficiency : List Json
  security : List Json

/-- The initial aggregated_data dict (lines 350-356). -/
def initAgg : AggData :=
  { overall_review := "Summary across all files."
    code_quality := []
    readability := []
    efficiency := []
    security := [] }

def AggData.cat (a : AggData) : Cat → List Json
  | Cat.code_quality => a.code_quality
  | Cat.readability => a.readability
  | Cat.efficiency => a.efficiency
  | Cat.security => a.security

/-- list.extend over a Python value: a list contributes its elements and a
string its one-character substrings.  Other values are not iterable (Python
would raise TypeError; the script only reaches this with lists, or strings
handed back verbatim by the model). -/
def jIter : Json → List Json
  | Json.arr l => l
  | Json.str s => s.data.map (fun c => Json.str (String.mk [c]))
  | _ => []

/-- String concatenation with a Python value: the script concatenates
ai_data's overall_review into the running summary; a non-string there
would raise TypeError (not modelled, the normalised default is a string). -/
def jStrOrEmpty : Json → String
  | Json.str s => s
  | _ => ""

/-- One iteration of the merge loop of __main__ (lines 376-383) for the
file (path, ai_data): append the tagged overall review, then extend each
finding category list, with the category loop unrolled over CATEGORIES. -/
def mergeStep (a : AggData) (pr : String × List (String × Json)) : AggData :=
  { overall_review :=
      a.overall_review ++ "\n"
        ++ jStrOrEmpty ((objGet pr.2 "overall_review").getD (Json.str ""))
        ++ " (in " ++ pr.1 ++ ")"
    code_quality :=
      a.code_quality ++ jIter ((objGet pr.2 "code_quality_and_best_practices").getD (Json.arr []))
    readability :=
      a.readability ++ jIter ((objGet pr.2 "readability_and_maintainability").getD (Json.arr []))
    efficiency :=
      a.efficiency ++ jIter ((objGet pr.2 "efficiency_and_performance_improvements").getD (Json.arr []))
    security :=
      a.security ++ jIter ((objGet pr.2 "security_vulnerabilities").getD (Json.arr [])) }

/- ----------------------------------------------------------------- -/
/- post_pr_comment: building the summary body (lines 298-314).        -/
/- ----------------------------------------------------------------- -/

/-- Python str() of a scalar JSON value, as interpolated into the comment
body f-string (container reprs are not modelled; the rendered fields are
line numbers and comment strings). -/
def pyStrOfJson : Json → String
  | Json.str s => s
  | Json.num n => toString n
  | Json.bool true => "True"
  | Json.bool false => "False"
  | Json.null => "None"
  | Json.arr _ => ""
  | Json.obj _ => ""

/-- Python str.title over a run of characters: uppercase a letter that does
not follow a letter, lowercase one that does. -/
def titleChars : Bool → List Char → List Char
  | _, [] => []
  | prevAlpha, c :: cs =>
    if c.isAlpha then
      (if prevAlpha then c.toLower else c.toUpper) :: titleChars true cs
    else c :: titleChars false cs

/-- cat.replace("_", " ").title() of line 308. -/
def catTitle (cat : String) : String :=
  String.mk (titleChars false (cat.data.map (fun c => if c = '_' then ' ' else c)))

/-- The body line appended for one finding (lines 311-313): line defaults
to the string "N/A", comment to the empty string. -/
def renderFindingLine (cobj : Json) : String :=
  "- **Line " ++ pyStrOfJson ((comGet cobj "line").getD (Json.str "N/A"))
    ++ "**: " ++ pyStrOfJson ((comGet cobj "comment").getD (Json.str ""))
    ++ "\n"

/-- The section body += loop of post_pr_comment for one category
(lines 307-314): nothing when the category list is empty (falsy),
otherwise a title line, one line per finding, and a blank line. -/
def renderCatSection (a : AggData) (c : Cat) : String :=
  if (a.cat c).isEmpty then ""
  else
    "### " ++ catTitle (Cat.key c) ++ "\n"
      ++ (a.cat c).foldl (fun acc cobj => acc ++ renderFindingLine cobj) ""
      ++ "\n"

/-- The full comment body built by post_pr_comment (lines 298-314). -/
def renderBody (a : AggData) : String :=
  "## 🔍 Overall AI Review\n" ++ a.overall_review ++ "\n\n"
    ++ renderCatSection a Cat.code_quality
    ++ renderCatSection a Cat.readability
    ++ renderCatSection a Cat.efficiency
    ++ renderCatSection a Cat.security

/- ----------------------------------------------------------------- -/
/- post_inline_comments (lines 254-287).                              -/
/- ----------------------------------------------------------------- -/

/-- The payload dict posted for one inline comment (lines 273-279). -/
structure InlinePayload where
  body : Json
  commit_id : String
  path : String
  side : String
  line : Json

/-- The payload built from one comment object once it passes the skip
check (lines 268-279). -/
def mkPayload (cid fpath : String) (c : Json) : InlinePayload :=
  { body := (comGet c "comment").getD (Json.str "")
    commit_id := cid
    path := fpath
    side := "RIGHT"
    line := (comGet c "line").getD Json.null }

/-- The skip check of lines 268-271: the comment is posted only when both
line and comment text are present and truthy (note line -3 is truthy). -/
def commentValid (c : Json) : Bool :=
  (match comGet c "line" with
   | some l => jTruthy l
   | none => false)
    && jTruthy ((comGet c "comment").getD (Json.str ""))

/-- The posting loop of lines 267-287 over a comment list: invalid comments
are skipped, each valid one is POSTed, and a failed POST (oracle false,
e.g. a line the API cannot anchor in the diff) is caught per comment and
the loop continues.  The result is the list of successfully posted
payloads in order. -/
def postLoop (cid fpath : String) (postOk : InlinePayload → Bool) :
    List Json → List InlinePayload
  | [] => []
  | c :: rest =>
    if commentValid c then
      if postOk (mkPayload cid fpath c) then
        mkPayload cid fpath c :: postLoop cid fpath postOk rest
      else postLoop cid fpath postOk rest
    else postLoop cid fpath postOk rest

/-- post_inline_comments (lines 254-287): returns early when the commit
sha fetch fails or is falsy, or when the comment list is empty. -/
def post_inline_comments (commit_id : Option String) (fpath : String)
    (comments : List Json) (postOk : InlinePayload → Bool) : List InlinePayload :=
  match commit_id with
  | none => []
  | some cid =>
    if cid = "" || comments.isEmpty then []
    else postLoop cid fpath postOk comments

/- ----------------------------------------------------------------- -/
/- __main__ (lines 330-386): sequencing over upstream oracles.        -/
/- ----------------------------------------------------------------- -/

/-- The upstream collaborators of __main__, as pure oracles: the GitHub
fetches (each already collapsed to its decoded result, `none` standing for
both an HTTP failure and an absent value) and the model response per
(path, content) pair (`none` standing for an OpenAIError). -/
structure Oracles where
  latest_pr : Option Int
  pr_branch : Option String
  modified_files : List String
  file_content : String → Option String
  ai_response : String → String → Option String
  commit_sha : Option String

/-- What one run performs: the process exit code, every successfully
posted inline payload in order, the summary comment body handed to the
final POST (`none` when the run aborted before reaching it), and the
paths for which a model review was requested, in order. -/
structure RunResult where
  exitCode : Nat
  posted : List InlinePayload
  summaryBody : Option String
  reviewed : List String

/-- The inline list built at lines 368-372: the concatenation of the four
non-overall category values of ai_data, in CATEGORIES order. -/
def inlineList (ai_data : List (String × Json)) : List Json :=
  jIter ((objGet ai_data "code_quality_and_best_practices").getD (Json.arr []))
    ++ jIter ((objGet ai_data "readability_and_maintainability").getD (Json.arr []))
    ++ jIter ((objGet ai_data "efficiency_and_performance_improvements").getD (Json.arr []))
    ++ jIter ((objGet ai_data "security_vulnerabilities").getD (Json.arr []))

/-- Python truthiness of the content fetch result (line 362,
`if not content`): a failed fetch or an empty file is falsy. -/
def contentFalsy : Option String → Bool
  | none => true
  | some s => s == ""

/-- The per-file loop body (lines 359-383) acting on the state
(aggregated_data, posted payloads, reviewed paths): a falsy content fetch
(failed, or an empty file) skips the file; otherwise the file is reviewed,
its non-overall categories are concatenated into the inline list, the
inline comments are posted, and the review is merged into the aggregate.
In the non-falsy branch `(O.file_content fpath).getD ""` is exactly the
fetched content string. -/
def perFile (O : Oracles) (postOk : InlinePayload → Bool)
    (st : AggData × List InlinePayload × List String) (fpath : String) :
    AggData × List InlinePayload × List String :=
  if contentFalsy (O.file_content fpath) then st
  else
    (mergeStep st.1
      (fpath, review_code (O.ai_response fpath ((O.file_content fpath).getD ""))),
     st.2.1 ++ post_inline_comments O.commit_sha fpath
        (inlineList (review_code (O.ai_response fpath ((O.file_content fpath).getD ""))))
        postOk,
     st.2.2 ++ [fpath])

/-- The abort result of the three early exit(0) calls (lines 333-347):
a clean exit before anything is posted. -/
def abortRun : RunResult :=
  { exitCode := 0, posted := [], summaryBody := none, reviewed := [] }

/-- __main__ (lines 330-386).  The three `if not ...: exit(0)` guards
model Python truthiness: a missing or zero PR number, a missing or empty
branch name, an empty file list.  Otherwise every modified file goes
through the per-file loop and the summary comment is posted once. -/
def mainRun (O : Oracles) (postOk : InlinePayload → Bool) : RunResult :=
  match O.latest_pr with
  | none => abortRun
  | some pr =>
    if pr = 0 then abortRun
    else
      match O.pr_branch with
      | none => abortRun
      | some br =>
        if br = "" then abortRun
        else if O.modified_files.isEmpty then abortRun
        else
          { exitCode := 0
            posted := (O.modified_files.foldl (perFile O postOk) (initAgg, [], [])).2.1
            summaryBody := some (renderBody
              (O.modified_files.foldl (perFile O postOk) (initAgg, [], [])).1)
            reviewed := (O.modified_files.foldl (perFile O postOk) (initAgg, [], [])).2.2 }

/- ----------------------------------------------------------------- -/
/- Auxiliary definitions for stating the properties.                  -/
/- ----------------------------------------------------------------- -/

/-- The tagged overall-review text contributed by a list of (path, review)
pairs, in processing order: one "\n<review> (in <path>)" block per file. -/
def tagJoin : List (String × List (String × Json)) → String
  | [] => ""
  | pr :: t =>
    "\n" ++ jStrOrEmpty ((objGet pr.2 "overall_review").getD (Json.str ""))
      ++ " (in " ++ pr.1 ++ ")" ++ tagJoin t

/-- Concatenation of a rendering function over a list of findings. -/
def strConcatMap (f : Json → String) : List Json → String
  | [] => ""
  | x :: t => f x ++ strConcatMap f t

/-- Substring occurrence test, used to inspect rendered bodies. -/
def subOccurs (needle : List Char) : List Char → Bool
  | [] => needle.isEmpty
  | c :: cs => List.isPrefixOf needle (c :: cs) || subOccurs needle cs

/-- A model response whose security category holds one finding with line 0
and an empty comment (the invalid-finding shape of the specification). -/
def rawInvalidFinding : String :=
  "\x7b\"security_vulnerabilities\": [\x7b\"line\": 0, \"comment\": \"\"\x7d]\x7d"

/-- The invalid finding contained in rawInvalidFinding. -/
def invalidFinding : Json :=
  Json.obj [("line", Json.num 0), ("comment", Json.str "")]

/-- A well-formed finding at line 3. -/
def finding3 : Json :=
  Json.obj [("line", Json.num 3), ("comment", Json.str "bad")]

/-- A normalised file review whose only finding is finding3, in the
security category. -/
def reviewWithFinding3 (summary : String) : List (String × Json) :=
  [("overall_review", Json.str summary),
   ("code_quality_and_best_practices", Json.arr []),
   ("readability_and_maintainability", Json.arr []),
   ("efficiency_and_performance_improvements", Json.arr []),
   ("security_vulnerabilities", Json.arr [finding3])]

/-- Aggregate of two files f1 and f2 that produced the identical finding3. -/
def aggTwoFiles : AggData :=
  mergeStep (mergeStep initAgg ("f1", reviewWithFinding3 "ok one"))
    ("f2", reviewWithFinding3 "ok two")

/-- A valid finding at line 7. -/
def finding7 : Json :=
  Json.obj [("line", Json.num 7), ("comment", Json.str "fix this")]

/-- A post oracle that rejects exactly payloads anchored at line 7,
modelling a line the API cannot place inside the file's diff. -/
def rejectLine7 : InlinePayload → Bool := fun p =>
  match p.line with
  | Json.num n => decide (n ≠ 7)
  | _ => true

/-- A post oracle that accepts everything. -/
def postAlways : InlinePayload → Bool := fun _ => true

/-- Oracles for a run with no open pull request. -/
def oraclesNoPr : Oracles :=
  { latest_pr := none
    pr_branch := some "main"
    modified_files := ["a.py"]
    file_content := fun _ => some "print(1)"
    ai_response := fun _ _ => some "\x7b\x7d"
    commit_sha := some "sha1" }

/-- Oracles for a run over files a.py and empty.py where empty.py fetches
as the empty string. -/
def oraclesEmptyFile : Oracles :=
  { latest_pr := some 12
    pr_branch := some "feature"
    modified_files := ["a.py", "empty.py"]
    file_content := fun p => if p = "empty.py" then some "" else some "x = 1"
    ai_response := fun _ _ => some "\x7b\"overall_review\": \"fine\"\x7d"
    commit_sha := some "sha2" }

/- ----------------------------------------------------------------- -/
/- Theorems.                                                          -/
/- ----------------------------------------------------------------- -/

/-- C1: every raw model-output string — empty, non-JSON, truncated braces
included — extracts to a dict carrying exactly the fixed CATEGORIES keys
in order; both raisable exceptions (the explicit ValueError and the
JSONDecodeError from json.loads) are caught by the except clause, so the
caller never sees an exception. -/
theorem extract_total_and_schema_complete (raw : String) :
    (reviewExtract raw).map Prod.fst = CATEGORIES := by
  unfold reviewExtract
  cases extractBody raw <;> rfl

/-- C2 counterexample: the extraction step keeps a finding whose line is 0
and whose comment is empty — the invalid finding is present verbatim in
the extracted security category and is carried into the aggregate by the
merge loop, contradicting the claim that it is discarded during
extraction and never propagated. -/
theorem invalid_finding_survives_extraction :
    objGet (reviewExtract rawInvalidFinding) "security_vulnerabilities"
      = some (Json.arr [invalidFinding])
    ∧ (mergeStep initAgg ("f", reviewExtract rawInvalidFinding)).security
      = [invalidFinding] :=
  ⟨rfl, rfl⟩

/-- C2 amended: extraction never filters findings — a category value
present in the parsed object is passed through verbatim by the
normalisation loop — and a finding is dropped only at inline-posting
time, where the skip test of lines 268-271 fires exactly on a falsy line
(missing, null or 0) or a falsy comment text. -/
theorem findings_unfiltered_until_posting :
    (∀ (data : List (String × Json)) (c : Cat) (v : Json),
      objGet data (Cat.key c) = some v →
      objGet (normalizeData data) (Cat.key c) = some v)
    ∧ ∀ (cid fpath : String) (postOk : InlinePayload → Bool) (c : Json)
        (rest : List Json),
      commentValid c = false →
      postLoop cid fpath postOk (c :: rest) = postLoop cid fpath postOk rest := by
  constructor
  · intro data c v h
    cases c
    · simp only [Cat.key] at h ⊢
      show some ((objGet data "code_quality_and_best_practices").getD (Json.arr []))
        = some v
      rw [h, Option.getD_some]
    · simp only [Cat.key] at h ⊢
      show some ((objGet data "readability_and_maintainability").getD (Json.arr []))
        = some v
      rw [h, Option.getD_some]
    · simp only [Cat.key] at h ⊢
      show some ((objGet data "efficiency_and_performance_improvements").getD (Json.arr []))
        = some v
      rw [h, Option.getD_some]
    · simp only [Cat.key] at h ⊢
      show some ((objGet data "security_vulnerabilities").getD (Json.arr []))
        = some v
      rw [h, Option.getD_some]
  · intro cid fpath postOk c rest h
    have hstep : postLoop cid fpath postOk (c :: rest)
        = if commentValid c then
            (if postOk (mkPayload cid fpath c) then
              mkPayload cid fpath c :: postLoop cid fpath postOk rest
            else postLoop cid fpath postOk rest)
          else postLoop cid fpath postOk rest := rfl
    rw [hstep, h]
    simp

/-- C2 amended witness: the invalid finding (line 0, empty comment) fails
commentValid, so posting it at the head of a list leaves the posted
payloads unchanged. -/
theorem findings_unfiltered_until_posting_witness :
    commentValid invalidFinding = false
    ∧ postLoop "sha" "f" postAlways [invalidFinding, finding3]
        = postLoop "sha" "f" postAlways [finding3] :=
  ⟨rfl, findings_unfiltered_until_posting.2 "sha" "f" postAlways
    invalidFinding [finding3] rfl⟩

/-- C3 counterexample: on an input with no brace at all the result is the
code's fallback dict, whose overall_review reads "AI review could not be
generated." — not the "AI response could not be parsed." text the claim
fixes. -/
theorem fallback_text_is_not_parse_message :
    objGet (reviewExtract "The answer is 42.") "overall_review"
      = some (Json.str "AI review could not be generated.")
    ∧ ("AI review could not be generated." : String)
        ≠ "AI response could not be parsed." :=
  ⟨rfl, by decide⟩

/-- Helper: under any of the three failure conditions the extraction body
cannot return a parsed object. -/
theorem extractBody_not_ok (raw : String)
    (h : findCharIdx '\x7b' raw.data = none
       ∨ rfindCharIdx '\x7d' raw.data = none
       ∨ jsonLoads (String.mk (pySlice raw.data
            ((findCharIdx '\x7b' raw.data).getD 0)
            (((rfindCharIdx '\x7d' raw.data).getD 0) + 1))) = none)
    (data : List (String × Json)) :
    extractBody raw ≠ Except.ok data := by
  unfold extractBody
  split
  next i j hf hr =>
    split
    next kvs hl =>
      intro hcontra
      rcases h with h | h | h
      · rw [hf] at h; exact Option.noConfusion h
      · rw [hr] at h; exact Option.noConfusion h
      · rw [hf, hr, Option.getD_some, Option.getD_some] at h
        rw [h] at hl
        exact Option.noConfusion hl
    next hne2 =>
      exact fun hc => Except.noConfusion hc
  next a b hab =>
    exact fun hc => Except.noConfusion hc

/-- C3 amended: whenever extraction fails — no opening brace, no closing
brace, or json.loads failing on the brace-delimited candidate — the result
is exactly the fallback dict with overall_review "AI review could not be
generated." and every category empty. -/
theorem extraction_failure_yields_exact_fallback (raw : String)
    (h : findCharIdx '\x7b' raw.data = none
       ∨ rfindCharIdx '\x7d' raw.data = none
       ∨ jsonLoads (String.mk (pySlice raw.data
            ((findCharIdx '\x7b' raw.data).getD 0)
            (((rfindCharIdx '\x7d' raw.data).getD 0) + 1))) = none) :
    reviewExtract raw =
      [("overall_review", Json.str "AI review could not be generated."),
       ("code_quality_and_best_practices", Json.arr []),
       ("readability_and_maintainability", Json.arr []),
       ("efficiency_and_performance_improvements", Json.arr []),
       ("security_vulnerabilities", Json.arr [])] := by
  cases hb : extractBody raw with
  | ok data => exact absurd hb (extractBody_not_ok raw h data)
  | error e =>
    unfold reviewExtract
    rw [hb]
    rfl

/-- C3 amended witness: the empty string has no opening brace and yields
the exact fallback dict. -/
theorem extraction_failure_witness :
    findCharIdx '\x7b' ("" : String).data = none
    ∧ reviewExtract "" =
      [("overall_review", Json.str "AI review could not be generated."),
       ("code_quality_and_best_practices", Json.arr []),
       ("readability_and_maintainability", Json.arr []),
       ("efficiency_and_performance_improvements", Json.arr []),
       ("security_vulnerabilities", Json.arr [])] :=
  ⟨rfl, extraction_failure_yields_exact_fallback "" (Or.inl rfl)⟩

/-- C8 counterexample: extraction succeeds on "\x7b\x7d" (the empty JSON
object), the parsed object has no overall_review key, and the resulting
overall_review is the empty string — not the claimed placeholder
"No review available.". -/
theorem missing_overall_review_defaults_to_empty :
    objGet (reviewExtract "\x7b\x7d") "overall_review" = some (Json.str "")
    ∧ Json.str "" ≠ Json.str "No review available." := by
  refine ⟨rfl, ?_⟩
  intro h
  injection h with h2
  exact absurd h2 (by decide)

/-- C8 amended: when extraction succeeds and the parsed object has no
overall_review key, the resulting overall_review is the empty string
(the data.get default of line 233). -/
theorem missing_overall_review_empty_string (raw : String)
    (data : List (String × Json))
    (hok : extractBody raw = Except.ok data)
    (hmiss : objGet data "overall_review" = none) :
    objGet (reviewExtract raw) "overall_review" = some (Json.str "") := by
  unfold reviewExtract
  rw [hok]
  show some ((objGet data "overall_review").getD (Json.str "")) = some (Json.str "")
  rw [hmiss]
  rfl

/-- C8 amended witness: on "\x7b\x7d" extraction succeeds with an empty
object and the overall_review of the result is the empty string. -/
theorem missing_overall_review_witness :
    extractBody "\x7b\x7d" = Except.ok []
    ∧ objGet ([] : List (String × Json)) "overall_review" = none
    ∧ objGet (reviewExtract "\x7b\x7d") "overall_review" = some (Json.str "") :=
  ⟨rfl, rfl, missing_overall_review_empty_string "\x7b\x7d" [] rfl rfl⟩

/-- Helper: one merge step appends the file's category list (as iterated
by list.extend) to the running aggregate list, untouched. -/
theorem mergeStep_cat (a : AggData) (pr : String × List (String × Json)) (c : Cat) :
    (mergeStep a pr).cat c
      = a.cat c ++ jIter ((objGet pr.2 (Cat.key c)).getD (Json.arr [])) := by
  cases c <;> rfl

/-- Helper: folding the merge loop over a file list concatenates the
per-file category lists in processing order. -/
theorem mergeFold_cat (frs : List (String × List (String × Json)))
    (a : AggData) (c : Cat) :
    (List.foldl mergeStep a frs).cat c
      = a.cat c
        ++ (frs.map (fun pr =>
              jIter ((objGet pr.2 (Cat.key c)).getD (Json.arr [])))).flatten := by
  induction frs generalizing a with
  | nil => simp
  | cons pr t ih =>
    simp only [List.foldl_cons, List.map_cons, List.flatten_cons]
    rw [ih, mergeStep_cat, List.append_assoc]

/-- Helper: folding the merge loop appends one tagged overall-review block
per file to the running summary text. -/
theorem mergeFold_overall (frs : List (String × List (String × Json)))
    (a : AggData) :
    (List.foldl mergeStep a frs).overall_review
      = a.overall_review ++ tagJoin frs := by
  induction frs generalizing a with
  | nil => simp [tagJoin]
  | cons pr t ih =>
    simp only [List.foldl_cons, tagJoin]
    rw [ih]
    show (mergeStep a pr).overall_review ++ tagJoin t = _
    simp only [mergeStep, String.append_assoc]

/-- C5: aggregation is order-preserving concatenation — after any sequence
of merge steps each category list is the concatenation, in file-processing
order and without reordering or deduplication, of the per-file category
lists, and merging a prefix and then one more FileReview equals processing
the whole list sequentially. -/
theorem aggregation_is_ordered_concatenation :
    (∀ (frs : List (String × List (String × Json))) (a : AggData) (c : Cat),
      (List.foldl mergeStep a frs).cat c
        = a.cat c
          ++ (frs.map (fun pr =>
                jIter ((objGet pr.2 (Cat.key c)).getD (Json.arr [])))).flatten)
    ∧ ∀ (ab : List (String × List (String × Json)))
        (cf : String × List (String × Json)) (a : AggData),
      List.foldl mergeStep a (ab ++ [cf])
        = mergeStep (List.foldl mergeStep a ab) cf := by
  refine ⟨mergeFold_cat, ?_⟩
  intro ab cf a
  simp [List.foldl_append]

/-- C6 counterexample: two files contribute the identical finding at line 3;
the aggregated security list holds the two findings verbatim with no path
attached, and the rendered report shows the finding as "- **Line 3**: bad"
while the claimed "f1:3" path-tagged form appears nowhere in the body. -/
theorem aggregate_entries_not_path_tagged :
    aggTwoFiles.security = [finding3, finding3]
    ∧ subOccurs ("f1:3").data (renderBody aggTwoFiles).data = false
    ∧ subOccurs ("- **Line 3**: bad").data (renderBody aggTwoFiles).data = true :=
  ⟨rfl, by decide, by decide⟩

/-- Helper: the body += loop over findings is the concatenation of the
rendered lines after the initial empty string. -/
theorem foldl_renderFindingLine (l : List Json) (init : String) :
    l.foldl (fun acc cobj => acc ++ renderFindingLine cobj) init
      = init ++ strConcatMap renderFindingLine l := by
  induction l generalizing init with
  | nil => simp [strConcatMap]
  | cons x t ih =>
    simp only [List.foldl_cons, strConcatMap]
    rw [ih]
    simp only [String.append_assoc]

/-- C6 amended: only the overall summary is path-tagged — each file's
overall_review is appended as "\n<review> (in <path>)" — while category
lists aggregate the findings themselves with no path, and the rendered
report lists each finding of a non-empty category as "- **Line N**:
comment" with no file path. -/
theorem aggregation_tags_only_overall :
    (∀ (frs : List (String × List (String × Json))) (a : AggData),
      (List.foldl mergeStep a frs).overall_review
        = a.overall_review ++ tagJoin frs)
    ∧ (∀ (frs : List (String × List (String × Json))) (a : AggData) (c : Cat),
      (List.foldl mergeStep a frs).cat c
        = a.cat c
          ++ (frs.map (fun pr =>
                jIter ((objGet pr.2 (Cat.key c)).getD (Json.arr [])))).flatten)
    ∧ ∀ (a : AggData) (c : Cat),
      (a.cat c).isEmpty = false →
      renderCatSection a c
        = "### " ++ catTitle (Cat.key c) ++ "\n"
          ++ strConcatMap renderFindingLine (a.cat c) ++ "\n" := by
  refine ⟨mergeFold_overall, mergeFold_cat, ?_⟩
  intro a c h
  unfold renderCatSection
  rw [h]
  simp only [Bool.false_eq_true, if_false]
  rw [foldl_renderFindingLine]
  simp [String.append_assoc]

/-- C6 amended witness: on the concrete two-file aggregate the security
category is non-empty and its section renders with the untagged
"- **Line 3**: bad" lines. -/
theorem aggregation_tags_only_overall_witness :
    (aggTwoFiles.cat Cat.security).isEmpty = false
    ∧ renderCatSection aggTwoFiles Cat.security
        = "### " ++ catTitle (Cat.key Cat.security) ++ "\n"
          ++ strConcatMap renderFindingLine (aggTwoFiles.cat Cat.security) ++ "\n" :=
  ⟨rfl, aggregation_tags_only_overall.2.2 aggTwoFiles Cat.security rfl⟩

/-- C7: the category set is closed — every key of the normalised result is
one of the fixed CATEGORIES (so unknown keys from the model are dropped),
and a finding category missing from the parsed object appears in the
result as the empty list. -/
theorem category_set_closed :
    (∀ (data : List (String × Json)) (k : String) (v : Json),
      (k, v) ∈ normalizeData data → k ∈ CATEGORIES)
    ∧ ∀ (data : List (String × Json)) (c : Cat),
      objGet data (Cat.key c) = none →
      objGet (normalizeData data) (Cat.key c) = some (Json.arr []) := by
  constructor
  · intro data k v h
    simp only [normalizeData, List.mem_cons, List.not_mem_nil, or_false] at h
    rcases h with h | h | h | h | h <;>
      (injection h with hk hv; subst hk; decide)
  · intro data c h
    cases c
    · simp only [Cat.key] at h ⊢
      show some ((objGet data "code_quality_and_best_practices").getD (Json.arr []))
        = some (Json.arr [])
      rw [h]
      rfl
    · simp only [Cat.key] at h ⊢
      show some ((objGet data "readability_and_maintainability").getD (Json.arr []))
        = some (Json.arr [])
      rw [h]
      rfl
    · simp only [Cat.key] at h ⊢
      show some ((objGet data "efficiency_and_performance_improvements").getD (Json.arr []))
        = some (Json.arr [])
      rw [h]
      rfl
    · simp only [Cat.key] at h ⊢
      show some ((objGet data "security_vulnerabilities").getD (Json.arr []))
        = some (Json.arr [])
      rw [h]
      rfl

/-- C7 witness: on an object with only an unknown key, the known head key
of the result is in CATEGORIES and the absent security category defaults
to the empty list. -/
theorem category_set_closed_witness :
    ("overall_review" : String) ∈ CATEGORIES
    ∧ objGet (normalizeData [("junk", Json.num 1)]) "security_vulnerabilities"
        = some (Json.arr []) :=
  ⟨category_set_closed.1 [("junk", Json.num 1)] "overall_review"
      ((objGet [("junk", Json.num 1)] "overall_review").getD (Json.str ""))
      (List.Mem.head _),
    category_set_closed.2 [("junk", Json.num 1)] Cat.security rfl⟩

/-- Helper: the posting loop is stateless across comments, so it
distributes over concatenation of comment lists. -/
theorem postLoop_append (cid fpath : String) (postOk : InlinePayload → Bool)
    (l1 l2 : List Json) :
    postLoop cid fpath postOk (l1 ++ l2)
      = postLoop cid fpath postOk l1 ++ postLoop cid fpath postOk l2 := by
  induction l1 with
  | nil => rfl
  | cons c t ih =>
    have hstep : ∀ rest, postLoop cid fpath postOk (c :: rest)
        = if commentValid c then
            (if postOk (mkPayload cid fpath c) then
              mkPayload cid fpath c :: postLoop cid fpath postOk rest
            else postLoop cid fpath postOk rest)
          else postLoop cid fpath postOk rest := fun rest => rfl
    show postLoop cid fpath postOk (c :: (t ++ l2)) = _
    rw [hstep, hstep]
    cases h1 : commentValid c <;> cases h2 : postOk (mkPayload cid fpath c) <;>
      simp [h1, h2, ih]

/-- Helper: a comment whose POST fails contributes nothing to the posted
list. -/
theorem postLoop_failed_head (cid fpath : String) (postOk : InlinePayload → Bool)
    (c : Json) (l2 : List Json)
    (h : postOk (mkPayload cid fpath c) = false) :
    postLoop cid fpath postOk (c :: l2) = postLoop cid fpath postOk l2 := by
  have hstep : postLoop cid fpath postOk (c :: l2)
      = if commentValid c then
          (if postOk (mkPayload cid fpath c) then
            mkPayload cid fpath c :: postLoop cid fpath postOk l2
          else postLoop cid fpath postOk l2)
        else postLoop cid fpath postOk l2 := rfl
  rw [hstep, h]
  simp

/-- Helper: a file whose content fetch is falsy (failed or empty) leaves
the loop state untouched. -/
theorem perFile_falsy (O : Oracles) (postOk : InlinePayload → Bool)
    (st : AggData × List InlinePayload × List String) (f : String)
    (h : contentFalsy (O.file_content f) = true) :
    perFile O postOk st f = st := by
  unfold perFile
  rw [h]
  simp

/-- Helper: the step taken for a file with non-falsy content. -/
theorem perFile_step (O : Oracles) (postOk : InlinePayload → Bool)
    (st : AggData × List InlinePayload × List String) (f : String)
    (h : contentFalsy (O.file_content f) = false) :
    perFile O postOk st f
      = (mergeStep st.1
          (f, review_code (O.ai_response f ((O.file_content f).getD ""))),
         st.2.1 ++ post_inline_comments O.commit_sha f
            (inlineList (review_code (O.ai_response f ((O.file_content f).getD ""))))
            postOk,
         st.2.2 ++ [f]) := by
  unfold perFile
  rw [h]
  simp

/-- Helper: the aggregate and the reviewed-path list produced by the
per-file loop do not depend on the posting oracle or on previously posted
payloads. -/
theorem perFileFold_agg_indep (O : Oracles) (p q : InlinePayload → Bool)
    (files : List String) :
    ∀ (a : AggData) (x y : List InlinePayload) (r : List String),
      (List.foldl (perFile O p) (a, x, r) files).1
        = (List.foldl (perFile O q) (a, y, r) files).1
      ∧ (List.foldl (perFile O p) (a, x, r) files).2.2
        = (List.foldl (perFile O q) (a, y, r) files).2.2 := by
  induction files with
  | nil => intro a x y r; exact ⟨rfl, rfl⟩
  | cons f t ih =>
    intro a x y r
    simp only [List.foldl_cons]
    cases hc : contentFalsy (O.file_content f) with
    | true =>
      rw [perFile_falsy O p (a, x, r) f hc, perFile_falsy O q (a, y, r) f hc]
      exact ih a x y r
    | false =>
      rw [perFile_step O p (a, x, r) f hc, perFile_step O q (a, y, r) f hc]
      exact ih _ _ _ _

/-- C4: a finding whose line the comment API cannot anchor in the file's
diff (modelled by the POST oracle rejecting its payload) loses exactly its
own inline comment — the rest of the list is posted as without it — and
the summary comment body is unchanged by any posting outcome, so the
file's entry stays in the overall summary. -/
theorem unmappable_line_drops_only_that_comment :
    (∀ (cid fpath : String) (postOk : InlinePayload → Bool)
       (l1 : List Json) (c : Json) (l2 : List Json),
      postOk (mkPayload cid fpath c) = false →
      postLoop cid fpath postOk (l1 ++ c :: l2)
        = postLoop cid fpath postOk l1 ++ postLoop cid fpath postOk l2)
    ∧ ∀ (O : Oracles) (p q : InlinePayload → Bool),
      (mainRun O p).summaryBody = (mainRun O q).summaryBody := by
  constructor
  · intro cid fpath postOk l1 c l2 h
    rw [postLoop_append, postLoop_failed_head cid fpath postOk c l2 h]
  · intro O p q
    unfold mainRun
    split
    · rfl
    · split
      · rfl
      · split
        · rfl
        · split
          · rfl
          · split
            · rfl
            · show some (renderBody
                  (O.modified_files.foldl (perFile O p) (initAgg, [], [])).1)
                = some (renderBody
                  (O.modified_files.foldl (perFile O q) (initAgg, [], [])).1)
              rw [(perFileFold_agg_indep O p q O.modified_files initAgg [] [] []).1]

/-- C4 witness: with a post oracle rejecting line-7 payloads and a
concrete comment list, the failed comment alone is dropped; and on
concrete oracles the summary body is the same whether posts fail or
succeed. -/
theorem unmappable_line_witness :
    rejectLine7 (mkPayload "sha" "f" finding7) = false
    ∧ postLoop "sha" "f" rejectLine7 ([finding3] ++ finding7 :: [])
        = postLoop "sha" "f" rejectLine7 [finding3]
          ++ postLoop "sha" "f" rejectLine7 []
    ∧ (mainRun oraclesEmptyFile rejectLine7).summaryBody
        = (mainRun oraclesEmptyFile postAlways).summaryBody :=
  ⟨rfl,
    unmappable_line_drops_only_that_comment.1 "sha" "f" rejectLine7
      [finding3] finding7 [] rfl,
    unmappable_line_drops_only_that_comment.2 oraclesEmptyFile rejectLine7 postAlways⟩

/-- C9: when a required upstream fetch is empty or absent — no open PR
(or PR number 0), no branch (or an empty branch name), or an empty
modified-file list — the run is the clean abort: exit code 0, no inline
comment posted, no summary comment posted, no review requested. -/
theorem upstream_empty_aborts_cleanly (O : Oracles) (postOk : InlinePayload → Bool) :
    (O.latest_pr = none ∨ O.latest_pr = some 0 → mainRun O postOk = abortRun)
    ∧ (O.pr_branch = none ∨ O.pr_branch = some "" → mainRun O postOk = abortRun)
    ∧ (O.modified_files = [] → mainRun O postOk = abortRun)
    ∧ abortRun.exitCode = 0 ∧ abortRun.posted = []
    ∧ abortRun.summaryBody = none ∧ abortRun.reviewed = [] := by
  refine ⟨?_, ?_, ?_, rfl, rfl, rfl, rfl⟩
  · intro h
    unfold mainRun
    split
    · rfl
    next pr heq =>
      rcases h with h | h
      · rw [heq] at h; exact Option.noConfusion h
      · rw [heq] at h
        rw [if_pos (Option.some.inj h)]
  · intro h
    unfold mainRun
    split
    · rfl
    next pr heq =>
      rcases eq_or_ne pr 0 with hpr | hpr
      · rw [if_pos hpr]
      · rw [if_neg hpr]
        split
        · rfl
        next br heqb =>
          rcases h with h | h
          · rw [heqb] at h; exact Option.noConfusion h
          · rw [heqb] at h
            rw [if_pos (Option.some.inj h)]
  · intro h
    unfold mainRun
    split
    · rfl
    next pr heq =>
      rcases eq_or_ne pr 0 with hpr | hpr
      · rw [if_pos hpr]
      · rw [if_neg hpr]
        split
        · rfl
        next br heqb =>
          rcases eq_or_ne br "" with hbr | hbr
          · rw [if_pos hbr]
          · rw [if_neg hbr]
            have hE : O.modified_files.isEmpty = true := by
              rw [h]; rfl
            rw [hE]
            rfl

/-- C9 witness: on concrete oracles with no open pull request the run is
the clean abort. -/
theorem upstream_empty_witness :
    oraclesNoPr.latest_pr = none
    ∧ mainRun oraclesNoPr postAlways = abortRun :=
  ⟨rfl, (upstream_empty_aborts_cleanly oraclesNoPr postAlways).1 (Or.inl rfl)⟩

/-- Helper: a file whose content fetch is falsy leaves the loop state
untouched. -/
theorem perFile_skip (O : Oracles) (postOk : InlinePayload → Bool)
    (st : AggData × List InlinePayload × List String) (f : String)
    (h : O.file_content f = some "") :
    perFile O postOk st f = st := by
  apply perFile_falsy
  rw [h]
  rfl

/-- C10: a modified file whose fetched content is the empty string is
skipped entirely: the per-file loop state — the aggregate, the posted
inline payloads and the reviewed-path list — after processing the file
list containing it equals the state after processing the list without it,
so no review is requested for it, nothing is posted for it and nothing of
it reaches the aggregated report. -/
theorem empty_content_file_skipped (O : Oracles) (postOk : InlinePayload → Bool)
    (l1 l2 : List String) (f : String)
    (h : O.file_content f = some "")
    (st : AggData × List InlinePayload × List String) :
    List.foldl (perFile O postOk) st (l1 ++ f :: l2)
      = List.foldl (perFile O postOk) st (l1 ++ l2) := by
  rw [List.foldl_append, List.foldl_append]
  simp only [List.foldl_cons]
  rw [perFile_skip O postOk _ f h]

/-- C10 witness: with a.py readable and empty.py fetching as the empty
string, the loop state over ["a.py", "empty.py"] equals the state over
["a.py"] alone. -/
theorem empty_content_file_witness :
    oraclesEmptyFile.file_content "empty.py" = some ""
    ∧ List.foldl (perFile oraclesEmptyFile postAlways) (initAgg, [], [])
        (["a.py"] ++ "empty.py" :: [])
      = List.foldl (perFile oraclesEmptyFile postAlways) (initAgg, [], [])
        (["a.py"] ++ []) :=
  ⟨rfl, empty_content_file_skipped oraclesEmptyFile postAlways
    ["a.py"] [] "empty.py" rfl (initAgg, [], [])⟩

end ReviewPr
